import Mathlib

/-!
Verification development for the credential discovery and normalization
engine of the cf-super-app repository (src/services/credential_helper.py,
src/services/base_handler.py, src/services/mysql_handler.py,
src/services/factory.py).

The Python code is shallowly embedded: JSON-ish values become `JVal`,
Python dictionaries become association lists, Python `or`-chains become
first-truthy selection, and raising code returns a `PyErr` through
`Except` or an explicit error component.
-/

namespace CFSuper

/-- JSON-like values, the payloads stored in VCAP_SERVICES credentials. -/
inductive JVal where
  | str (s : String)
  | num (n : Int)
  | boolean (b : Bool)
  | null
  | obj (fields : List (String × JVal))
  | arr (elems : List JVal)
deriving Repr

/-- Python exception kinds that the embedded code can raise. -/
inductive PyErr where
  | valueError
  | attributeError
  | keyError
  | typeError
deriving Repr, DecidableEq

/-- Python truthiness of a JSON value ('', 0, False, None, {}, [] are falsy). -/
def truthy : JVal → Bool
  | .str s => !s.isEmpty
  | .num n => n != 0
  | .boolean b => b
  | .null => false
  | .obj fs => !fs.isEmpty
  | .arr xs => !xs.isEmpty

/-- Truthiness of a Python value that may be None (`Option JVal`). -/
def truthyOpt : Option JVal → Bool
  | some v => truthy v
  | none => false

/-- Dictionary lookup, `d.get(k)`: None when the key is absent. -/
def jget (fields : List (String × JVal)) (k : String) : Option JVal :=
  (fields.find? (fun kv => kv.1 == k)).map (fun kv => kv.2)

/-- Membership test, Python `k in d`. -/
def jhas (fields : List (String × JVal)) (k : String) : Bool :=
  fields.any (fun kv => kv.1 == k)

/-- Python `d.get(k1) or d.get(k2) or ...`: the first truthy value, if any.
A chain whose operands are all falsy evaluates to its last operand, which
at every use site in the source is either tested for truthiness or is a
trailing literal handled by the caller, so `none` represents that case. -/
def firstTruthy (fields : List (String × JVal)) (keys : List String) : Option JVal :=
  keys.findSome? (fun k =>
    match jget fields k with
    | some v => if truthy v then some v else none
    | none => none)

/-- Python `a or b` for optional values: `a` when truthy, else `b`. -/
def pyOr (a b : Option JVal) : Option JVal :=
  match a with
  | some v => if truthy v then some v else b
  | none => b

/-- ASCII lower-casing on characters (all identifiers and tags in this
code base are ASCII). -/
def strToLower (s : String) : String :=
  String.mk (s.data.map Char.toLower)

/-- Fuel-driven body of `strReplace`; the fuel is the input length, and
each step consumes at least one character. -/
def replaceAuxFuel (pat rep : List Char) : Nat → List Char → List Char
  | _, [] => []
  | 0, l => l
  | fuel + 1, c :: rest =>
    if pat.isPrefixOf (c :: rest) then
      rep ++ replaceAuxFuel pat rep fuel ((c :: rest).drop pat.length)
    else c :: replaceAuxFuel pat rep fuel rest

/-- Python `s.replace(pat, rep)` for a non-empty pattern: all
non-overlapping occurrences, left to right (the source never replaces an
empty pattern). -/
def strReplace (s pat rep : String) : String :=
  if pat.data.isEmpty then s
  else String.mk (replaceAuxFuel pat.data rep.data s.data.length s.data)

/-- Whitespace stripped by Python `str.strip()` / `int()`. -/
def isSpaceChar (c : Char) : Bool :=
  c == ' ' || c == '\t' || c == '\n' || c == '\r'

/-- Python `s.strip()` restricted to common whitespace. -/
def strTrim (s : String) : String :=
  String.mk (((s.data.dropWhile isSpaceChar).reverse.dropWhile isSpaceChar).reverse)

/-- Decimal digit run to a number; None unless non-empty and all digits. -/
def digitsToNat (l : List Char) : Option Nat :=
  if !l.isEmpty && l.all Char.isDigit then
    some (l.foldl (fun a c => a * 10 + (c.toNat - 48)) 0)
  else none

/-- Decimal digits of a natural number, fuel-driven. -/
def natDigits : Nat → Nat → List Char
  | 0, _ => []
  | fuel + 1, n =>
    if n < 10 then [Char.ofNat (n + 48)]
    else natDigits fuel (n / 10) ++ [Char.ofNat (n % 10 + 48)]

/-- Python `str(i)` for an integer. -/
def intToDecString (i : Int) : String :=
  match i with
  | .ofNat n => String.mk (natDigits (n + 1) n)
  | .negSucc m => String.mk ('-' :: natDigits (m + 2) (m + 1))

/-- Python `int(s)` on a string: optional surrounding whitespace, optional
sign, decimal digits; None models the ValueError raised otherwise. -/
def pyStrToInt (s : String) : Option Int :=
  let t := (strTrim s).data
  let (sign, digits) :=
    match t with
    | '-' :: rest => ((-1 : Int), rest)
    | '+' :: rest => ((1 : Int), rest)
    | l => ((1 : Int), l)
  match digitsToNat digits with
  | some n => some (sign * (n : Int))
  | none => none

/-- Python `int(v)` on a JSON value; None models the ValueError/TypeError
raised for unconvertible values. -/
def pyToInt : JVal → Option Int
  | .num n => some n
  | .boolean b => some (if b then 1 else 0)
  | .str s => pyStrToInt s
  | _ => none

/-- Hex digit value for percent-decoding. -/
def hexVal (c : Char) : Option Nat :=
  if '0' ≤ c ∧ c ≤ '9' then some (c.toNat - '0'.toNat)
  else if 'a' ≤ c ∧ c ≤ 'f' then some (c.toNat - 'a'.toNat + 10)
  else if 'A' ≤ c ∧ c ≤ 'F' then some (c.toNat - 'A'.toNat + 10)
  else none

/-- Percent-decoding on characters, `urllib.parse.unquote` restricted to
single-byte escapes (the source only feeds it URI userinfo fields). -/
def unquoteAux : List Char → List Char
  | [] => []
  | '%' :: a :: b :: tail =>
    match hexVal a, hexVal b with
    | some x, some y => Char.ofNat (16 * x + y) :: unquoteAux tail
    | _, _ => '%' :: unquoteAux (a :: b :: tail)
  | c :: rest => c :: unquoteAux rest

/-- Percent-decoding, `urllib.parse.unquote`. -/
def unquote (s : String) : String :=
  String.mk (unquoteAux s.data)

/-- Substring containment, Python `needle in hay` on strings. -/
def strContains (hay needle : String) : Bool :=
  (List.range (hay.data.length + 1)).any
    (fun i => needle.data.isPrefixOf (hay.data.drop i))

/-- Python `s.lstrip(c)` for a single strip character. -/
def lstripChar (s : String) (c : Char) : String :=
  String.mk (s.data.dropWhile (fun d => d == c))

/-- Result of `urllib.parse.urlparse`: the components the handlers read.
`portRaw` keeps the raw port text (None when absent or empty), since
Python parses and validates it lazily at `.port` access. -/
structure Url where
  scheme : String
  hostname : Option String
  portRaw : Option String
  username : Option String
  password : Option String
  path : String
deriving Repr

/-- Valid URL scheme text: a letter followed by letters, digits, `+`, `-`, `.`. -/
def validScheme : List Char → Bool
  | [] => false
  | c :: rest => c.isAlpha && rest.all (fun d => d.isAlphanum || d == '+' || d == '-' || d == '.')

/-- Split the last occurrence of a character: (before, after), or none
when the character does not occur. Models `str.rpartition`. -/
def splitLast (l : List Char) (ch : Char) : Option (List Char × List Char) :=
  match l.reverse.findIdx? (fun c => c == ch) with
  | some ri =>
    let i := l.length - 1 - ri
    some (l.take i, l.drop (i + 1))
  | none => none

/-- Split the first occurrence of a character: (before, after), or none
when the character does not occur. Models `str.partition`. -/
def splitFirst (l : List Char) (ch : Char) : Option (List Char × List Char) :=
  match l.findIdx? (fun c => c == ch) with
  | some i => some (l.take i, l.drop (i + 1))
  | none => none

/-- `urllib.parse.urlparse` restricted to the shapes the handlers feed it:
`scheme://[user[:password]@]host[:port][/path]`, with the hostname
lowercased and empty components surfaced as None exactly as urllib does. -/
def urlparse (s : String) : Url :=
  let (scheme, rest) :=
    match s.data.findIdx? (fun c => c == ':') with
    | some i =>
      let pre := s.data.take i
      if validScheme pre then
        (String.mk (pre.map Char.toLower), s.data.drop (i + 1))
      else ("", s.data)
    | none => ("", s.data)
  let (netloc, pathChars) :=
    if rest.take 2 = ['/', '/'] then
      let after := rest.drop 2
      (after.takeWhile (fun c => c ≠ '/' && c ≠ '?' && c ≠ '#'),
       after.dropWhile (fun c => c ≠ '/' && c ≠ '?' && c ≠ '#'))
    else ([], rest)
  let (userinfo, hostinfo) :=
    match splitLast netloc '@' with
    | some (u, h) => (some u, h)
    | none => (none, netloc)
  let (username, password) :=
    match userinfo with
    | some u =>
      match splitFirst u ':' with
      | some (n, p) => (some (String.mk n), some (String.mk p))
      | none => (some (String.mk u), none)
    | none => (none, none)
  let (hostChars, portChars) :=
    match splitFirst hostinfo ':' with
    | some (h, p) => (h, some p)
    | none => (hostinfo, none)
  { scheme := scheme
    hostname := if hostChars.isEmpty then none else some (String.mk (hostChars.map Char.toLower))
    portRaw := match portChars with
      | some [] => none
      | some p => some (String.mk p)
      | none => none
    username := username
    password := password
    path := String.mk pathChars }

/-- `parsed.port`: parsed lazily; non-numeric or out-of-range text raises
ValueError, absent or empty port is None. -/
def urlPort (u : Url) : Except PyErr (Option Int) :=
  match u.portRaw with
  | none => .ok none
  | some p =>
    match digitsToNat p.data with
    | some n => if n ≤ 65535 then .ok (some (n : Int)) else .error .valueError
    | none => .error .valueError

/-! ## Connection Parameter Extractor
`get_connection_params_from_creds` in src/services/credential_helper.py.
The returned Python dict is modelled by `Params`: an outer `Option` records
whether the key is present (absent keys make `params[...]` raise KeyError),
the inner value records the stored Python value (which may be None). -/

/-- The dict returned by `get_connection_params_from_creds`. Keys `uri`,
`host`, `port` are conditionally present; in the empty-dict early returns
every key is absent. -/
structure Params where
  uri : Option JVal := none
  host : Option (Option JVal) := none
  port : Option (Option Int) := none
  username : Option (Option JVal) := none
  password : Option (Option JVal) := none
  database : Option (Option JVal) := none
  vhost : Option JVal := none
  ssl : Option JVal := none
  ssl_ca : Option (Option JVal) := none
deriving Repr

/-- The unwrap step at the top of `get_connection_params_from_creds`
(credential_helper.py lines 176-185): unwrap a pure `{'credentials': ...}`
wrapper, else prefer a non-empty nested `credentials` dict over the
payload that carries it. -/
def extractorUnwrap (creds : JVal) : JVal :=
  match creds with
  | .obj fs =>
    if jhas fs "credentials" && (fs.length == 1 || fs.all (fun kv => kv.1 == "credentials")) then
      (jget fs "credentials").getD (.obj [])
    else
      match jget fs "credentials" with
      | some (.obj nested) =>
        if truthy (.obj nested) && nested.length > 0 then .obj nested else creds
      | _ => creds
  | _ => creds

/-- Key alias list for the URI field, in source order. -/
def uriKeys : List String :=
  ["uri", "url", "connection_string", "connectionString",
   "jdbcUrl", "jdbc_url", "connection_uri", "connectionUri"]

/-- Key alias list for the host field, in source order. -/
def hostKeys : List String :=
  ["hostname", "host", "hostname_or_ip", "hostName", "HostName"]

/-- `extract(credentials, default_host, default_port)`:
`get_connection_params_from_creds` (credential_helper.py lines 167-267).
Raises AttributeError (as the Python does at `creds.get`) when the payload
left after unwrapping is truthy but not a dict. -/
def get_connection_params_from_creds (creds : JVal)
    (default_host : Option String) (default_port : Option Int) :
    Except PyErr Params :=
  if !truthy creds then .ok {} else
  let creds := extractorUnwrap creds
  if !truthy creds then .ok {} else
  match creds with
  | .obj fs =>
    let uri := firstTruthy fs uriKeys
    let host : Option (Option JVal) :=
      if uri.isSome then none
      else
        let h := pyOr (firstTruthy fs hostKeys) (default_host.map JVal.str)
        -- lines 216-218: only default to localhost if explicitly provided
        let h := if !truthyOpt h && default_host == some "localhost"
                 then some (JVal.str "localhost") else h
        some h
    let portValue : Option JVal :=
      pyOr (firstTruthy fs ["port", "ssl_port", "Port"]) (default_port.map JVal.num)
    let port : Option (Option Int) :=
      match portValue with
      | some v =>
        if truthy v then
          some (match pyToInt v with
                | some n => some n
                | none => (default_port.filter (fun n => n ≠ 0)))
        else none
      | none => none
    .ok { uri := uri
          host := host
          port := port
          username := some (firstTruthy fs ["username", "user", "user_id", "userName", "UserName"])
          password := some (firstTruthy fs ["password", "pass", "Password"])
          database := some (firstTruthy fs ["database", "db", "name", "db_name", "databaseName", "Database"])
          vhost := some ((firstTruthy fs ["vhost", "vHost", "VHost"]).getD (.str "/"))
          ssl := some ((firstTruthy fs ["ssl", "SSL"]).getD (.boolean false))
          ssl_ca := some (firstTruthy fs ["ssl_ca", "sslCa", "SSL_CA"]) }
  | _ => .error .attributeError

/-! ## Binding Matcher
`find_service_credentials` in src/services/credential_helper.py.
The parsed VCAP_SERVICES manifest is modelled structurally: each
grouping key maps to a list of service instances with an optional name,
string tags, and an opaque credentials payload (absent credentials are
the empty dict, matching `svc.get('credentials', {})`). -/

/-- One service instance of the binding manifest. -/
structure Svc where
  name : Option String := none
  tags : List String := []
  credentials : JVal := .obj []
deriving Repr

/-- The parsed VCAP_SERVICES dict: grouping key to instance list. -/
abbrev Catalog := List (String × List Svc)

/-- Lookup of a grouping key, Python `vcap[k]` / `k in vcap`. -/
def lookupCat (vcap : Catalog) (k : String) : Option (List Svc) :=
  ((vcap : List (String × List Svc)).find? (fun kv => kv.1 == k)).map (fun kv => kv.2)

/-- The single-step nested-credentials unwrap used by matcher strategies
1-3 (credential_helper.py lines 44-47 and repeats): unwrap only a
singleton `{'credentials': ...}` dict. -/
def unwrapCreds1 (creds : JVal) : JVal :=
  match creds with
  | .obj fs =>
    if jhas fs "credentials" && fs.length == 1 then
      (jget fs "credentials").getD (.obj [])
    else creds
  | _ => creds

/-- The strategy-4 unwrap (credential_helper.py lines 131-134): its second
disjunct is translated literally even though it is equivalent to the
singleton test. -/
def unwrapCreds4 (creds : JVal) : JVal :=
  match creds with
  | .obj fs =>
    if jhas fs "credentials" then
      if fs.length == 1
          || (fs.filter (fun kv => kv.1 ≠ "credentials")).all (fun kv => kv.1 == "credentials") then
        (jget fs "credentials").getD (.obj [])
      else creds
    else creds
  | _ => creds

/-- Normalization of a service-type identifier for tag and name matching:
`service_type.replace('p.', '').replace('p-', '').replace('.', '-').lower()`. -/
def cleanType (st : String) : String :=
  strToLower (strReplace (strReplace (strReplace st "p." "") "p-" "") "." "-")

/-- The tag-match condition of strategy 2 (credential_helper.py lines 81-87). -/
def tagCond (ct : String) (st : String) (tagList : List String) : Bool :=
  tagList.contains ct
  || tagList.contains (strToLower st)
  || tagList.contains (strReplace ct "postgresql" "postgres")
  || tagList.contains (strReplace ct "postgres" "postgresql")
  || (tagList.contains "database" && ["mysql", "postgres", "postgresql"].contains ct)
  || (tagList.contains "cache" && ["redis", "valkey"].contains ct)
  || (tagList.contains "queue" && ["rabbitmq"].contains ct)

/-- Strategy 1 body for one service type: direct grouping-key lookup
(credential_helper.py lines 34-54). A name match is tried first when a
service name was given; either way the first instance is the fallback. -/
def step1 (vcap : Catalog) (service_name : Option String) (st : String) : Option JVal :=
  match lookupCat vcap st with
  | some services =>
    if services.length > 0 then
      let byName :=
        match service_name with
        | some nm =>
          services.findSome? (fun svc =>
            if svc.name == some nm && truthy svc.credentials
            then some (unwrapCreds1 svc.credentials) else none)
        | none => none
      match byName with
      | some r => some r
      | none =>
        match services.head? with
        | some svc0 =>
          if truthy svc0.credentials then some (unwrapCreds1 svc0.credentials) else none
        | none => none
    else none
  | none => none

/-- Strategy 1: direct type-key lookup over all requested service types. -/
def strat1 (vcap : Catalog) (service_types : List String) (service_name : Option String) :
    Option JVal :=
  service_types.findSome? (step1 vcap service_name)

/-- Strategy 2 name pass: exact name match among user-provided services
(credential_helper.py lines 60-69). -/
def strat2name (ups : List Svc) (service_name : Option String) : Option JVal :=
  match service_name with
  | some nm =>
    ups.findSome? (fun svc =>
      if svc.name == some nm && truthy svc.credentials
      then some (unwrapCreds1 svc.credentials) else none)
  | none => none

/-- Strategy 2 tag pass: tag match among user-provided services
(credential_helper.py lines 71-93). Runs for every query, with or
without a requested service name. -/
def strat2tag (ups : List Svc) (service_types : List String) : Option JVal :=
  ups.findSome? (fun svc =>
    let tagList := svc.tags.map strToLower
    service_types.findSome? (fun st =>
      if tagCond (cleanType st) st tagList && truthy svc.credentials
      then some (unwrapCreds1 svc.credentials) else none))

/-- Strategy 2b: service-name substring match among user-provided services
(credential_helper.py lines 95-108). -/
def strat2b (ups : List Svc) (service_types : List String) : Option JVal :=
  ups.findSome? (fun svc =>
    let nameCheck := strToLower (svc.name.getD "")
    service_types.findSome? (fun st =>
      if (strContains nameCheck (cleanType st) || strContains nameCheck (strToLower st))
          && truthy svc.credentials
      then some (unwrapCreds1 svc.credentials) else none))

/-- Strategy 3: global exact-name search over every grouping key
(credential_helper.py lines 110-120). -/
def strat3 (vcap : Catalog) (service_name : Option String) : Option JVal :=
  match service_name with
  | some nm =>
    (vcap : List (String × List Svc)).findSome? (fun p =>
      p.2.findSome? (fun svc =>
        if svc.name == some nm && truthy svc.credentials
        then some (unwrapCreds1 svc.credentials) else none))
  | none => none

/-- The credential-shape test of strategy 4 for one cleaned service type
(credential_helper.py lines 140-163); AttributeError when a shape check
runs against a non-dict payload. -/
def shapeCheck (ct : String) (creds : JVal) : Except PyErr Bool :=
  if ["mysql", "postgres", "postgresql"].contains ct then
    match creds with
    | .obj fs =>
      let hasHost := truthyOpt (pyOr (jget fs "hostname") (jget fs "host"))
      let hasDb := truthyOpt (pyOr (jget fs "database") (pyOr (jget fs "name") (jget fs "db")))
      let hasUri := truthyOpt (pyOr (jget fs "uri") (pyOr (jget fs "url")
        (pyOr (jget fs "connection_string") (jget fs "connectionString"))))
      .ok (hasUri || (hasHost && hasDb))
    | _ => .error .attributeError
  else if ct == "rabbitmq" then
    match creds with
    | .obj fs =>
      let hasHost := truthyOpt (pyOr (jget fs "hostname") (jget fs "host"))
      let hasVhost := truthyOpt (jget fs "vhost")
      let hasUri := truthyOpt (pyOr (jget fs "uri") (pyOr (jget fs "url") (jget fs "amqp_uri")))
      .ok (hasUri || (hasHost && hasVhost))
    | _ => .error .attributeError
  else if ["redis", "valkey"].contains ct then
    match creds with
    | .obj fs =>
      .ok (truthyOpt (pyOr (jget fs "hostname") (pyOr (jget fs "host")
        (pyOr (jget fs "uri") (pyOr (jget fs "url") (jget fs "redis_uri"))))))
    | _ => .error .attributeError
  else .ok false

/-- Strategy 4 inner loop over service types for one candidate payload. -/
def strat4inner (creds : JVal) : List String → Except PyErr Bool
  | [] => .ok false
  | st :: rest =>
    match shapeCheck (cleanType st) creds with
    | .error e => .error e
    | .ok true => .ok true
    | .ok false => strat4inner creds rest

/-- Strategy 4: credential-shape heuristic over user-provided services
(credential_helper.py lines 122-163). -/
def strat4 (service_types : List String) : List Svc → Except PyErr (Option JVal)
  | [] => .ok none
  | svc :: rest =>
    if !truthy svc.credentials then strat4 service_types rest
    else
      let c := unwrapCreds4 svc.credentials
      match strat4inner c service_types with
      | .error e => .error e
      | .ok true => .ok (some c)
      | .ok false => strat4 service_types rest

/-- `find_service_credentials(service_types, service_name)`
(credential_helper.py lines 6-165) over an already-parsed manifest:
the ordered strategy chain, first success wins, None when nothing
matches. -/
def find_service_credentials (vcap : Catalog) (service_types : List String)
    (service_name : Option String) : Except PyErr (Option JVal) :=
  match strat1 vcap service_types service_name with
  | some r => .ok (some r)
  | none =>
    let afterUps : Except PyErr (Option JVal) :=
      match strat3 vcap service_name with
      | some r => .ok (some r)
      | none =>
        match lookupCat vcap "user-provided" with
        | some ups => strat4 service_types ups
        | none => .ok none
    match lookupCat vcap "user-provided" with
    | some ups =>
      match strat2name ups service_name with
      | some r => .ok (some r)
      | none =>
        match strat2tag ups service_types with
        | some r => .ok (some r)
        | none =>
          match strat2b ups service_types with
          | some r => .ok (some r)
          | none => afterUps
    | none => afterUps

/-! ## Service Connection Resolver
`ServiceHandler` and its subclasses in src/services/base_handler.py.
The four classes become a `Kind`; handler attributes become `HState`.
Methods that mutate `self` and may raise become functions
`... → HState → HState × Option PyErr`, so that partial mutation before a
raise is preserved exactly as in Python. -/

/-- The handler subclass: `ServiceHandler` itself (abstract but with
concrete parsing methods), `DatabaseHandler`, `CacheHandler`,
`MessageQueueHandler`. -/
inductive Kind where
  | base
  | db
  | cache
  | mq
deriving Repr, DecidableEq

/-- Per-handler configuration passed to `ServiceHandler.__init__`:
service types, default port, environment variable prefix. -/
structure SvcCfg where
  service_types : List String
  default_port : Int
  env_pfx : String
deriving Repr

/-- Handler attributes touched by credential resolution. -/
structure HState where
  host : Option JVal := none
  port : Int := 0
  username : Option JVal := none
  password : Option JVal := none
  database : Option JVal := none
  vhost : Option JVal := none
  connection_uri : Option JVal := none
deriving Repr

/-- Process environment, `os.environ`. -/
abbrev Env := List (String × String)

/-- `os.environ.get(k)`. -/
def envGet (env : Env) (k : String) : Option String :=
  ((env : List (String × String)).find? (fun kv => kv.1 == k)).map (fun kv => kv.2)

/-- `_extract_uri` per handler kind (base_handler.py lines 94-103,
153-176, 235-237, 262-264). Only called on truthy dict payloads; the
chains return the first truthy URI-like value. -/
def extract_uri (k : Kind) (creds : JVal) : Option JVal :=
  match creds with
  | .obj fs =>
    match k with
    | .base => firstTruthy fs ["uri", "url", "connection_string", "connectionString",
                               "connection_uri", "connectionUri"]
    | .db =>
      let sg := (jget fs "service_gateway").getD (.obj [])
      let fromGateway :=
        match sg with
        | .obj sgf => pyOr (firstTruthy sgf ["uri"]) (firstTruthy sgf ["jdbcUrl"])
        | _ => none
      match fromGateway with
      | some u => some u
      | none => firstTruthy fs ["uri", "url", "connection_string", "connectionString",
                                "connection_uri", "connectionUri", "jdbcUrl", "jdbc_url",
                                "jdbc_uri", "jdbcUri"]
    | .cache => firstTruthy fs ["uri", "url", "redis_uri"]
    | .mq => firstTruthy fs ["uri", "url", "amqp_uri"]
  | _ => none

/-- `ServiceHandler._parse_uri` (base_handler.py lines 105-111). -/
def base_parse_uri (dp : Int) (uri : JVal) (s : HState) : HState × Option PyErr :=
  match uri with
  | .str u =>
    let parsed := urlparse u
    match parsed.hostname with
    | none => (s, some .valueError)
    | some h =>
      let s1 := { s with host := some (.str h) }
      match urlPort parsed with
      | .error e => (s1, some e)
      | .ok p => ({ s1 with port := ((p.filter (fun n => n ≠ 0)).getD dp) }, none)
  | _ => (s, some .typeError)

/-- `DatabaseHandler._parse_uri` (base_handler.py lines 178-199). -/
def db_parse_uri (dp : Int) (uri : JVal) (s : HState) : HState × Option PyErr :=
  match uri with
  | .str u =>
    let s0 := { s with connection_uri := some (.str u) }
    let u2 := strReplace (strReplace u "mysql2://" "mysql://") "postgres://" "postgresql://"
    let parsed := urlparse u2
    match parsed.hostname with
    | none => (s0, some .valueError)
    | some h =>
      let s1 := { s0 with host := some (.str h) }
      match urlPort parsed with
      | .error e => (s1, some e)
      | .ok p =>
        let s2 := { s1 with port := ((p.filter (fun n => n ≠ 0)).getD dp) }
        let s3 := { s2 with
          username := match parsed.username with
            | some un => if un.isEmpty then none else some (.str (unquote un))
            | none => none
          password := some (.str (match parsed.password with
            | some pw => if pw.isEmpty then "" else unquote pw
            | none => ""))
          database := if parsed.path.isEmpty then none
                      else some (.str (lstripChar parsed.path '/')) }
        (s3, none)
  -- non-string URI: `self._connection_uri = uri` has already run when
  -- `uri.replace(...)` raises AttributeError
  | _ => ({ s with connection_uri := some uri }, some .attributeError)

/-- `CacheHandler._parse_uri` (base_handler.py lines 239-244). -/
def cache_parse_uri (dp : Int) (uri : JVal) (s : HState) : HState × Option PyErr :=
  match uri with
  | .str u =>
    let parsed := urlparse u
    let s1 := { s with host := some (.str (parsed.hostname.getD "localhost")) }
    match urlPort parsed with
    | .error e => (s1, some e)
    | .ok p =>
      let s2 := { s1 with port := ((p.filter (fun n => n ≠ 0)).getD dp) }
      ({ s2 with password := match parsed.password with
          | some pw => if pw.isEmpty then none else some (.str pw)
          | none => none }, none)
  | _ => (s, some .typeError)

/-- `MessageQueueHandler._parse_uri` (base_handler.py lines 266-273). -/
def mq_parse_uri (dp : Int) (uri : JVal) (s : HState) : HState × Option PyErr :=
  match uri with
  | .str u =>
    let parsed := urlparse u
    let s1 := { s with host := some (.str (parsed.hostname.getD "localhost")) }
    match urlPort parsed with
    | .error e => (s1, some e)
    | .ok p =>
      let s2 := { s1 with port := ((p.filter (fun n => n ≠ 0)).getD dp) }
      ({ s2 with
          username := some (.str (match parsed.username with
            | some un => if un.isEmpty then "guest" else un
            | none => "guest"))
          password := some (.str (match parsed.password with
            | some pw => if pw.isEmpty then "guest" else pw
            | none => "guest"))
          vhost := some (.str (if parsed.path.isEmpty then "/"
                               else lstripChar parsed.path '/')) }, none)
  | _ => (s, some .typeError)

/-- `_parse_uri` dispatched on the handler kind. -/
def parse_uri (k : Kind) (dp : Int) (uri : JVal) (s : HState) : HState × Option PyErr :=
  match k with
  | .base => base_parse_uri dp uri s
  | .db => db_parse_uri dp uri s
  | .cache => cache_parse_uri dp uri s
  | .mq => mq_parse_uri dp uri s

/-- `ServiceHandler._parse_credentials` (base_handler.py lines 113-121). -/
def base_parse_credentials (dp : Int) (creds : JVal) (s : HState) : HState × Option PyErr :=
  match get_connection_params_from_creds creds none (some dp) with
  | .error e => (s, some e)
  | .ok p =>
    let s1 := { s with host := p.host.getD none
                       port := (((p.port.getD none).filter (fun n => n ≠ 0)).getD dp) }
    if truthyOpt s1.host then (s1, none) else (s1, some .valueError)

/-- `DatabaseHandler._parse_credentials` (base_handler.py lines 201-221). -/
def db_parse_credentials (dp : Int) (creds : JVal) (s : HState) : HState × Option PyErr :=
  match get_connection_params_from_creds creds none (some dp) with
  | .error e => (s, some e)
  | .ok p =>
    let hostv := p.host.getD none
    let s1 := { s with host := if truthyOpt hostv then hostv else none
                       port := (((p.port.getD none).filter (fun n => n ≠ 0)).getD dp) }
    let s2 := { s1 with
      username := pyOr (p.username.getD none) s.username
      password := (match p.password.getD none with
        | some v => if truthy v then some v else some (.str "")
        | none => some (.str ""))
      database := pyOr (p.database.getD none) s.database }
    if truthyOpt s2.host then (s2, none) else (s2, some .valueError)

/-- `CacheHandler._parse_credentials` (base_handler.py lines 246-251):
note the explicit `'localhost'` default host passed to the extractor. -/
def cache_parse_credentials (dp : Int) (creds : JVal) (s : HState) : HState × Option PyErr :=
  match get_connection_params_from_creds creds (some "localhost") (some dp) with
  | .error e => (s, some e)
  | .ok p =>
    match p.host with
    | none => (s, some .keyError)
    | some hv =>
      ({ s with host := hv
                port := (((p.port.getD none).filter (fun n => n ≠ 0)).getD dp)
                password := p.password.getD none }, none)

/-- `MessageQueueHandler._parse_credentials` (base_handler.py lines 275-282). -/
def mq_parse_credentials (dp : Int) (creds : JVal) (s : HState) : HState × Option PyErr :=
  match get_connection_params_from_creds creds (some "localhost") (some dp) with
  | .error e => (s, some e)
  | .ok p =>
    match p.host with
    | none => (s, some .keyError)
    | some hv =>
      ({ s with host := hv
                port := (((p.port.getD none).filter (fun n => n ≠ 0)).getD dp)
                username := pyOr (p.username.getD none) (some (.str "guest"))
                password := pyOr (p.password.getD none) (some (.str "guest"))
                vhost := pyOr p.vhost (some (.str "/")) }, none)

/-- `_parse_credentials` dispatched on the handler kind. -/
def parse_credentials (k : Kind) (dp : Int) (creds : JVal) (s : HState) : HState × Option PyErr :=
  match k with
  | .base => base_parse_credentials dp creds s
  | .db => db_parse_credentials dp creds s
  | .cache => cache_parse_credentials dp creds s
  | .mq => mq_parse_credentials dp creds s

/-- `ServiceHandler._load_from_env` (base_handler.py lines 123-133). -/
def base_load_from_env (cfg : SvcCfg) (env : Env) (s : HState) : HState × Option PyErr :=
  match envGet env (cfg.env_pfx ++ "_HOST") with
  | some hv =>
    if hv.isEmpty then (s, some .valueError)
    else
      let s1 := { s with host := some (.str hv) }
      match pyStrToInt ((envGet env (cfg.env_pfx ++ "_PORT")).getD (intToDecString cfg.default_port)) with
      | some n => ({ s1 with port := n }, none)
      | none => (s1, some .valueError)
  | none => (s, some .valueError)

/-- `_load_from_env` dispatched on the handler kind (base_handler.py
lines 123-133, 223-229, 253-256, 284-289). -/
def load_from_env (k : Kind) (cfg : SvcCfg) (env : Env) (s : HState) : HState × Option PyErr :=
  match base_load_from_env cfg env s with
  | (s1, some e) => (s1, some e)
  | (s1, none) =>
    match k with
    | .base => (s1, none)
    | .db =>
      ({ s1 with
          username := match envGet env (cfg.env_pfx ++ "_USER") with
            | some v => if v.isEmpty then s1.username else some (.str v)
            | none => s1.username
          password :=
            (let envpw := (envGet env (cfg.env_pfx ++ "_PASSWORD")).getD ""
             if !envpw.isEmpty then some (.str envpw)
             else if truthyOpt s1.password then s1.password
             else some (.str ""))
          database := match envGet env (cfg.env_pfx ++ "_DATABASE") with
            | some v => if v.isEmpty then s1.database else some (.str v)
            | none => s1.database }, none)
    | .cache =>
      ({ s1 with password := (envGet env (cfg.env_pfx ++ "_PASSWORD")).map JVal.str }, none)
    | .mq =>
      ({ s1 with
          username := some (.str ((envGet env (cfg.env_pfx ++ "_USER")).getD "guest"))
          password := some (.str ((envGet env (cfg.env_pfx ++ "_PASS")).getD "guest"))
          vhost := some (.str ((envGet env (cfg.env_pfx ++ "_VHOST")).getD "/")) }, none)

/-- The environment-fallback arm of `ServiceHandler._load_credentials`
(base_handler.py lines 82-92): check `{PREFIX}_HOST`, then delegate to
`_load_from_env`, else raise. -/
def env_fallback (k : Kind) (cfg : SvcCfg) (env : Env) (s : HState) : HState × Option PyErr :=
  match envGet env (cfg.env_pfx ++ "_HOST") with
  | some hv => if hv.isEmpty then (s, some .valueError) else load_from_env k cfg env s
  | none => (s, some .valueError)

/-- `ServiceHandler._load_credentials` (base_handler.py lines 52-92):
extractor URI first, then `_extract_uri`, then individual fields, then
environment fallback. The ValueError re-raise on lines 73-80 only
rewrites the message, so it is the identity here. -/
def load_credentials (k : Kind) (cfg : SvcCfg) (vcap : Catalog) (env : Env)
    (s : HState) : HState × Option PyErr :=
  let envBranch : HState × Option PyErr := env_fallback k cfg env s
  match find_service_credentials vcap cfg.service_types none with
  | .error e => (s, some e)
  | .ok copt =>
    match copt with
    | some creds =>
      if truthy creds then
        match get_connection_params_from_creds creds none (some cfg.default_port) with
        | .error e => (s, some e)
        | .ok p =>
          match p.uri with
          | some u => parse_uri k cfg.default_port u s
          | none =>
            match extract_uri k creds with
            | some u => parse_uri k cfg.default_port u s
            | none => parse_credentials k cfg.default_port creds s
      else envBranch
    | none => envBranch

/-- Result of `ServiceHandler.__init__`: handler state plus the
credentials-loaded flag and the stored credential error. -/
structure InitResult where
  state : HState
  credentials_loaded : Bool
  credential_error : Option PyErr
deriving Repr

/-- `ServiceHandler.__init__` (base_handler.py lines 14-50): fields start
as None / default port, `_load_credentials` runs under a catch-all
`except` that stores the error instead of raising. -/
def shInit (k : Kind) (cfg : SvcCfg) (vcap : Catalog) (env : Env) : InitResult :=
  match load_credentials k cfg vcap env
      { host := none, port := cfg.default_port, username := none, password := none } with
  | (s, none) => { state := s, credentials_loaded := true, credential_error := none }
  | (s, some e) => { state := s, credentials_loaded := false, credential_error := some e }

/-- Service types and configuration of `PostgresHandler`
(postgres_handler.py lines 11-17). -/
def postgresCfg : SvcCfg :=
  { service_types := ["p.postgresql", "p-postgresql", "postgresql", "postgres"]
    default_port := 5432
    env_pfx := "POSTGRES" }

/-- Service types and configuration of `RabbitMQHandler`
(rabbitmq_handler.py lines 10-16). -/
def rabbitCfg : SvcCfg :=
  { service_types := ["p.rabbitmq", "p-rabbitmq", "rabbitmq"]
    default_port := 5672
    env_pfx := "RABBITMQ" }

/-! ## Standalone MySQL handler
`MySQLHandler` in src/services/mysql_handler.py is not a `ServiceHandler`
subclass: its `__init__` resolves credentials inline, with no catch-all,
and defaults missing values (including the host) itself. -/

/-- Connection attributes set by `MySQLHandler.__init__`. -/
structure MyState where
  host : Option JVal := none
  port : Int := 3306
  username : Option JVal := none
  password : Option JVal := none
  database : Option JVal := none
deriving Repr

/-- Service types searched by `MySQLHandler` (mysql_handler.py lines 17-22). -/
def mysqlServiceTypes : List String :=
  ["p.mysql", "p-mysql", "p.mysql-for-kubernetes", "mysql"]

/-- `MySQLHandler.__init__` (mysql_handler.py lines 14-54). An error value
models an exception escaping the constructor. -/
def mysqlInit (vcap : Catalog) (env : Env) : Except PyErr MyState := do
  let creds ← find_service_credentials vcap mysqlServiceTypes none
  match creds with
  | some c =>
    if truthy c then
      match c with
      | .obj fs =>
        match firstTruthy fs ["uri", "url", "jdbcUrl", "jdbc_url"] with
        | some u =>
          match u with
          | .str ustr =>
            let parsed := urlparse (strReplace ustr "mysql2://" "mysql://")
            let port ← match urlPort parsed with
              | .error e => .error e
              | .ok p => .ok (((p.filter (fun n => n ≠ 0)).getD 3306))
            .ok { host := some (.str (parsed.hostname.getD "localhost"))
                  port := port
                  username := some (.str (match parsed.username with
                    | some un => if un.isEmpty then "root" else unquote un
                    | none => "root"))
                  password := some (.str (match parsed.password with
                    | some pw => if pw.isEmpty then "" else unquote pw
                    | none => ""))
                  database := some (.str (if parsed.path.isEmpty then "testdb"
                                          else lstripChar parsed.path '/')) }
          -- non-string URI value: `uri.replace(...)` raises
          | _ => .error .attributeError
        | none =>
          match get_connection_params_from_creds c (some "localhost") (some 3306) with
          | .error e => .error e
          | .ok p =>
            -- subscript accesses params['host'] etc.: KeyError when absent
            match p.host with
            | none => .error .keyError
            | some hostv =>
              match p.port with
              | none => .error .keyError
              | some portv =>
                match p.database, p.username, p.password with
                | some dbv, some unv, some pwv =>
                  .ok { host := hostv
                        port := ((portv.filter (fun n => n ≠ 0)).getD 3306)
                        username := pyOr unv (some (.str "root"))
                        password := pyOr pwv (some (.str ""))
                        database := pyOr dbv (some (.str "testdb")) }
                | _, _, _ => .error .keyError
      -- non-dict credentials payload: `creds.get('uri')` raises
      | _ => .error .attributeError
    else mysqlEnvBranch env
  | none => mysqlEnvBranch env
where
  /-- The environment-variable fallback of `MySQLHandler.__init__`
  (mysql_handler.py lines 46-52): every field, including the host,
  silently defaults. -/
  mysqlEnvBranch (env : Env) : Except PyErr MyState := do
    let port ← match envGet env "MYSQL_PORT" with
      | none => .ok (3306 : Int)
      | some ps => match pyStrToInt ps with
        | some n => .ok n
        | none => .error .valueError
    .ok { host := some (.str ((envGet env "MYSQL_HOST").getD "localhost"))
          port := port
          database := some (.str ((envGet env "MYSQL_DATABASE").getD "testdb"))
          username := some (.str ((envGet env "MYSQL_USER").getD "root"))
          password := some (.str ((envGet env "MYSQL_PASSWORD").getD "")) }

/-! ## Auxiliary definitions used by the claims -/

/-- Modelled from the spec: the fixed set of connection-indicator keys of
§4.1 (host/hostname variants, uri/url variants, username/password
variants, database/name variants, port, vhost, TLS markers, the gateway
sub-block marker), assembled from the extractor's alias lists of §4.3. -/
def connectionIndicatorKeys : List String :=
  hostKeys ++ uriKeys ++
  ["username", "user", "user_id", "userName", "UserName",
   "password", "pass", "Password",
   "database", "db", "name", "db_name", "databaseName", "Database",
   "port", "ssl_port", "Port", "vhost", "vHost", "VHost",
   "ssl", "SSL", "ssl_ca", "sslCa", "SSL_CA", "service_gateway"]

/-- A payload contains at least one connection-indicator key. -/
def hasIndicatorKey (fs : List (String × JVal)) : Bool :=
  connectionIndicatorKeys.any (jhas fs)

/-- A value on which the extractor's field reads cannot raise: a dict, or
anything falsy (which takes the early empty-dict return). -/
def isObjOrFalsy : JVal → Bool
  | .obj _ => true
  | v => !truthy v

/-- The URI selection step of `ServiceHandler._load_credentials`
(base_handler.py lines 56-68): the URI the resolver will parse — the
extractor's top-level URI chain first, `_extract_uri` second. -/
def uriChoice (k : Kind) (dp : Int) (creds : JVal) : Except PyErr (Option JVal) :=
  match get_connection_params_from_creds creds none (some dp) with
  | .error e => .error e
  | .ok p =>
    match p.uri with
    | some u => .ok (some u)
    | none => .ok (extract_uri k creds)

/-- Service types and configuration registered for the Valkey handler in
the factory (factory.py lines 18-22). -/
def valkeyCfg : SvcCfg :=
  { service_types := ["p.redis", "p-redis", "valkey", "redis"]
    default_port := 6379
    env_pfx := "VALKEY" }

/-- Service types and configuration registered for the MySQL handler in
the factory (factory.py lines 23-27). -/
def mysqlCfg : SvcCfg :=
  { service_types := ["p.mysql", "p-mysql", "mysql"]
    default_port := 3306
    env_pfx := "MYSQL" }

/-- Demo manifest: one user-provided instance tagged `cache` whose
credentials carry a password but neither URI nor host. -/
def vcapCacheNoHost : Catalog :=
  [("user-provided", [{ name := some "my-cache", tags := ["cache"],
                        credentials := .obj [("password", .str "x")] }])]

/-- Demo manifest: a postgres binding whose credentials carry both a
top-level `uri` and a `service_gateway.uri`. -/
def vcapBothUris : Catalog :=
  [("postgres", [{ name := some "orders-db",
                   credentials := .obj
                     [("uri", .str "postgresql://top:pw@tophost:5432/db"),
                      ("service_gateway", .obj
                        [("uri", .str "postgresql://gw:pw@gwhost:5432/db")])] }])]

/-- A payload with an indicator key and a nested credentials dict. -/
def payloadHostPlusNested : JVal :=
  .obj [("host", .str "h"), ("credentials", .obj [("user", .str "u")])]

/-- The doubly nested payload of the spec's unwrapping scenario. -/
def doublyNested : JVal :=
  .obj [("credentials", .obj [("credentials", .obj [("host", .str "h")])])]

/-- A triply nested payload, one wrapping layer beyond the double case. -/
def triplyNested : JVal :=
  .obj [("credentials", .obj [("credentials", .obj [("credentials", .obj [("host", .str "h")])])])]

/-- Demo manifest holding only the doubly nested payload under `mysql`. -/
def vcapDoublyNested : Catalog :=
  [("mysql", [{ credentials := doublyNested }])]

/-- Demo manifest holding only the triply nested payload under `mysql`. -/
def vcapTriplyNested : Catalog :=
  [("mysql", [{ credentials := triplyNested }])]

/-- Demo manifest: an untagged user-provided instance whose name matches
no alias but whose credential shape looks like a database. -/
def vcapShapeOnly : Catalog :=
  [("user-provided", [{ name := some "svc-a",
                        credentials := .obj [("host", .str "h"), ("database", .str "d")] }])]

/-- Demo manifest: a tagged user-provided instance, queried with a
non-matching exact name. -/
def vcapTagged : Catalog :=
  [("user-provided", [{ name := some "a", tags := ["mysql"],
                        credentials := .obj [("host", .str "h")] }])]

/-- Demo manifest: a `mysql` instance that unwraps to an empty payload,
followed by a matching user-provided instance. -/
def vcapEmptyThenTagged : Catalog :=
  [("mysql", [{ name := some "a", credentials := .obj [("credentials", .obj [])] }]),
   ("user-provided", [{ name := some "b", tags := ["mysql"],
                        credentials := .obj [("host", .str "h")] }])]

/-- Demo manifest: a `mysql` binding whose only URI-like key is
`connection_string`, which `MySQLHandler.__init__` does not test for
before indexing `params['host']`. -/
def vcapConnString : Catalog :=
  [("mysql", [{ name := some "m",
                credentials := .obj [("connection_string", .str "mysql://u@h/db")] }])]

/-! ## Counterexamples refuting the claims as stated -/

/-- Claim C1, refuted: a matched cache payload containing neither a URI
nor a host does not make resolution fail — `CacheHandler` resolves it
with host `localhost` and no stored error, instead of transitioning to
Failed as the claim requires. -/
theorem c1_cache_localhost_counterexample :
    (shInit .cache valkeyCfg vcapCacheNoHost []).credential_error = none ∧
    (shInit .cache valkeyCfg vcapCacheNoHost []).state.host = some (.str "localhost") :=
  ⟨rfl, rfl⟩

/-- Claim C2, refuted: `MySQLHandler` environment fallback with
`MYSQL_HOST` unset does not fail — it silently defaults the host to
`localhost` (and every other field to its well-known default). -/
theorem c2_mysql_env_default_counterexample :
    mysqlInit [] [] = .ok { host := some (.str "localhost"), port := 3306,
                            username := some (.str "root"), password := some (.str ""),
                            database := some (.str "testdb") } :=
  rfl

/-- Claim C3, refuted: with both a gateway sub-block URI and a top-level
`uri` present, resolution parses the top-level URI (host `tophost`), not
the gateway one (`gwhost`), because `_load_credentials` consults the
extractor's top-level chain before `_extract_uri`. -/
theorem c3_toplevel_uri_wins_counterexample :
    (load_credentials .db postgresCfg vcapBothUris [] { port := 5432 }).2 = none ∧
    (load_credentials .db postgresCfg vcapBothUris [] { port := 5432 }).1.host
      = some (.str "tophost") ∧
    (load_credentials .db postgresCfg vcapBothUris [] { port := 5432 }).1.connection_uri
      = some (.str "postgresql://top:pw@tophost:5432/db") :=
  ⟨rfl, rfl, rfl⟩

/-- Claim C4, refuted: a payload with the indicator key `host` and a
non-empty nested `credentials` dict is not returned unchanged by the
extractor's unwrap step — the nested dict replaces it. -/
theorem c4_extractor_descends_counterexample :
    hasIndicatorKey [("host", .str "h"), ("credentials", .obj [("user", .str "u")])] = true ∧
    extractorUnwrap payloadHostPlusNested = .obj [("user", .str "u")] ∧
    extractorUnwrap payloadHostPlusNested ≠ payloadHostPlusNested := by
  refine ⟨rfl, rfl, ?_⟩
  intro h
  rw [show extractorUnwrap payloadHostPlusNested = .obj [("user", JVal.str "u")] from rfl] at h
  simp [payloadHostPlusNested] at h

/-- Claim C5, refuted: the matcher's unwrap strips exactly one layer of
the doubly nested payload, returning the singly nested payload rather
than the innermost `{host: "h"}`; there is no depth-5 recursion. -/
theorem c5_single_step_unwrap_counterexample :
    find_service_credentials vcapDoublyNested ["mysql"] none =
      .ok (some (.obj [("credentials", .obj [("host", .str "h")])])) ∧
    (JVal.obj [("credentials", .obj [("host", .str "h")])] ≠ .obj [("host", .str "h")]) := by
  refine ⟨rfl, ?_⟩
  intro h
  simp at h

/-- Claim C6, refuted: a catalog with no matching grouping key, name or
tag still yields a payload — the strategy-4 credential-shape heuristic
selects the untagged user-provided binding. -/
theorem c6_shape_heuristic_counterexample :
    find_service_credentials vcapShapeOnly ["mysql"] none =
      .ok (some (.obj [("host", .str "h"), ("database", .str "d")])) :=
  rfl

/-- Claim C7, refuted: with an exact name requested that matches nothing,
the tag-match strategy still runs and selects the tagged binding instead
of returning NotFound. -/
theorem c7_tag_match_despite_name_counterexample :
    find_service_credentials vcapTagged ["mysql"] (some "nonexistent") =
      .ok (some (.obj [("host", .str "h")])) :=
  rfl

/-- Claim C8, refuted: a payload that unwraps to empty is returned as the
empty payload, terminating the search — the later tag-matching
user-provided binding with a real host is never reached. -/
theorem c8_returns_empty_payload_counterexample :
    find_service_credentials vcapEmptyThenTagged ["mysql"] none = .ok (some (.obj [])) :=
  rfl

/-- Claim C9, refuted: a payload whose `credentials` key holds a
non-dictionary truthy value makes the extractor raise AttributeError
instead of returning parameters. -/
theorem c9_attribute_error_counterexample :
    get_connection_params_from_creds (.obj [("credentials", .str "abc")]) none none =
      .error .attributeError :=
  rfl

/-- Claim C10, refuted: `MySQLHandler` construction propagates a KeyError
out of `__init__` when the matched credentials carry only a
`connection_string` URI, because `params['host']` is indexed without the
key being present. -/
theorem c10_mysql_keyerror_counterexample :
    mysqlInit vcapConnString [] = .error .keyError :=
  rfl

/-! ## Amended claims, proved -/

/-- Claim C5, amended: unwrapping strips at most one `credentials` layer
per stage — the matcher strips one and the extractor one more, with no
recursion budget — so the doubly nested payload resolves end to end to
host `h`, while the triply nested payload fails to resolve. -/
theorem c5_two_stage_unwrap :
    (load_credentials .db mysqlCfg vcapDoublyNested [] { port := 3306 }).2 = none ∧
    (load_credentials .db mysqlCfg vcapDoublyNested [] { port := 3306 }).1.host
      = some (.str "h") ∧
    (load_credentials .db mysqlCfg vcapTriplyNested [] { port := 3306 }).2
      = some .valueError :=
  ⟨rfl, rfl, rfl⟩

/-- Claim C9, amended: the extractor never raises as long as the payload
left after its unwrap step is a dictionary or falsy; only a truthy
non-dict unwrap result (e.g. a string under a lone `credentials` key)
raises. -/
theorem c9_extractor_total (creds : JVal) (dh : Option String) (dp : Option Int)
    (h : isObjOrFalsy (extractorUnwrap creds) = true) :
    ∃ p, get_connection_params_from_creds creds dh dp = .ok p := by
  unfold get_connection_params_from_creds
  split
  · exact ⟨{}, rfl⟩
  · cases hv : extractorUnwrap creds with
    | obj fs =>
      dsimp only
      split
      · exact ⟨{}, rfl⟩
      · exact ⟨_, rfl⟩
    | str s' => rw [hv] at h; simp [isObjOrFalsy] at h; exact ⟨{}, by simp [h]⟩
    | num n => rw [hv] at h; simp [isObjOrFalsy] at h; exact ⟨{}, by simp [h]⟩
    | boolean b => rw [hv] at h; simp [isObjOrFalsy] at h; exact ⟨{}, by simp [h]⟩
    | null => exact ⟨{}, rfl⟩
    | arr xs => rw [hv] at h; simp [isObjOrFalsy] at h; exact ⟨{}, by simp [h]⟩

/-- Witness for C9: the extractor succeeds on a plain host payload. -/
theorem c9_extractor_total_witness :
    isObjOrFalsy (extractorUnwrap (.obj [("host", .str "h")])) = true ∧
    ∃ p, get_connection_params_from_creds (.obj [("host", .str "h")]) none none = .ok p :=
  ⟨rfl, c9_extractor_total (.obj [("host", .str "h")]) none none rfl⟩

/-- Claim C4, amended: the matcher's single-step unwrap returns any
payload containing a connection-indicator key unchanged (its unwrap
condition requires the payload to be a singleton `credentials` dict);
the extractor's unwrap, by contrast, descends into a non-empty nested
`credentials` dict even when indicator keys are present. -/
theorem c4_matcher_unwrap_keeps_indicator_payloads
    (fs : List (String × JVal)) (h : hasIndicatorKey fs = true) :
    unwrapCreds1 (.obj fs) = .obj fs := by
  simp only [unwrapCreds1]
  split
  · next hc =>
    exfalso
    rcases fs with _ | ⟨⟨k, v⟩, t⟩
    · simp [jhas] at hc
    · rcases t with _ | ⟨b, t2⟩
      · simp [jhas] at hc
        subst hc
        simp [hasIndicatorKey, connectionIndicatorKeys, hostKeys, uriKeys, jhas] at h
      · simp [jhas] at hc
  · rfl

/-- Witness for C4: a host-carrying payload with an extra nested
credentials dict is left unchanged by the matcher's unwrap. -/
theorem c4_matcher_unwrap_keeps_indicator_payloads_witness :
    hasIndicatorKey [("host", JVal.str "h"), ("credentials", JVal.obj [("user", JVal.str "u")])]
      = true ∧
    unwrapCreds1 (.obj [("host", JVal.str "h"), ("credentials", JVal.obj [("user", JVal.str "u")])])
      = .obj [("host", JVal.str "h"), ("credentials", JVal.obj [("user", JVal.str "u")])] :=
  ⟨rfl, c4_matcher_unwrap_keeps_indicator_payloads _ rfl⟩

/-- The extractor never finds a truthy value in an empty payload. -/
theorem firstTruthy_nil (keys : List String) : firstTruthy [] keys = none := by
  unfold firstTruthy
  rw [List.findSome?_eq_none_iff]
  intro k _
  simp [jget]

/-- Claim C2, amended: handlers built on `ServiceHandler` do not default
the host — with no matching binding and the `{PREFIX}_HOST` variable
unset, resolution fails leaving the state untouched, and the extractor
called without a default host resolves a payload with no truthy
host-like key to host None. (The standalone MySQL/Valkey handlers and
the Cache/MessageQueue parse paths, by contrast, pass `localhost`
defaults.) -/
theorem c2_no_implicit_localhost :
    (∀ (k : Kind) (cfg : SvcCfg) (vcap : Catalog) (env : Env) (s : HState),
       find_service_credentials vcap cfg.service_types none = .ok none →
       envGet env (cfg.env_pfx ++ "_HOST") = none →
       load_credentials k cfg vcap env s = (s, some .valueError)) ∧
    (∀ (fs : List (String × JVal)) (dp : Option Int) (p : Params),
       extractorUnwrap (.obj fs) = .obj fs →
       firstTruthy fs hostKeys = none →
       get_connection_params_from_creds (.obj fs) none dp = .ok p →
       p.host.getD none = none) := by
  constructor
  · intro k cfg vcap env s hfind henv
    unfold load_credentials env_fallback
    rw [hfind, henv]
  · intro fs dp p hu hhost hok
    unfold get_connection_params_from_creds at hok
    rw [hu] at hok
    by_cases ht : truthy (JVal.obj fs) = true
    · simp only [ht, Bool.not_true, Bool.false_eq_true, if_false] at hok
      rw [Except.ok.injEq] at hok
      subst hok
      by_cases hus : (firstTruthy fs uriKeys).isSome = true
      · simp [hus]
      · simp [hus, hhost, pyOr]
    · simp only [Bool.not_eq_true] at ht
      simp only [ht, Bool.not_false, if_true] at hok
      rw [Except.ok.injEq] at hok
      subst hok
      rfl

/-- Witness for C2: base-handler resolution with an empty manifest and
environment fails without touching the host, and the extractor yields
host None for a password-only payload. -/
theorem c2_no_implicit_localhost_witness :
    load_credentials .base valkeyCfg [] [] { port := 6379 } =
      ({ port := 6379 }, some .valueError) ∧
    ∀ p, get_connection_params_from_creds (.obj [("password", .str "x")]) none (some 6379)
        = .ok p → p.host.getD none = none := by
  constructor
  · exact c2_no_implicit_localhost.1 .base valkeyCfg [] [] { port := 6379 } rfl rfl
  · intro p hp
    exact c2_no_implicit_localhost.2 [("password", .str "x")] (some 6379) p rfl rfl hp

/-- Claim C3, amended: for a matched payload, the resolver's URI choice
checks the extractor's top-level alias chain (`uri`, `url`,
`connection_string`, `connectionString`, `jdbcUrl`, `jdbc_url`,
`connection_uri`, `connectionUri`, applied to the unwrapped payload)
first, and consults `DatabaseHandler._extract_uri` — the gateway
sub-block's `uri`, then its `jdbcUrl`, then the extended top-level chain
— only when that top-level chain finds nothing; so a top-level URI wins
over a gateway sub-block URI, not the other way round. -/
theorem c3_extractor_chain_first :
    ∀ (creds : JVal) (fs : List (String × JVal)) (dp : Int),
      truthy creds = true →
      extractorUnwrap creds = .obj fs →
      uriChoice .db dp creds =
        .ok (match firstTruthy fs uriKeys with
             | some u => some u
             | none => extract_uri .db creds) := by
  intro creds fs dp ht hu
  unfold uriChoice get_connection_params_from_creds
  rw [hu]
  simp only [ht, Bool.not_true, Bool.false_eq_true, if_false]
  by_cases htf : truthy (JVal.obj fs) = true
  · simp only [htf, Bool.not_true, Bool.false_eq_true, if_false]
    cases hft : firstTruthy fs uriKeys <;> simp [hft]
  · simp only [Bool.not_eq_true] at htf
    simp only [htf, Bool.not_false, if_true]
    have hfs : fs = [] := by
      cases fs with
      | nil => rfl
      | cons a t => simp [truthy] at htf
    subst hfs
    rw [firstTruthy_nil]

/-- Witness for C3: with both URIs present the top-level one is chosen. -/
theorem c3_extractor_chain_first_witness :
    uriChoice .db 5432
      (.obj [("uri", .str "postgresql://top:pw@tophost:5432/db"),
             ("service_gateway", .obj [("uri", .str "postgresql://gw:pw@gwhost:5432/db")])])
      = .ok (some (.str "postgresql://top:pw@tophost:5432/db")) :=
  c3_extractor_chain_first
    (.obj [("uri", .str "postgresql://top:pw@tophost:5432/db"),
           ("service_gateway", .obj [("uri", .str "postgresql://gw:pw@gwhost:5432/db")])])
    [("uri", .str "postgresql://top:pw@tophost:5432/db"),
     ("service_gateway", .obj [("uri", .str "postgresql://gw:pw@gwhost:5432/db")])]
    5432 rfl rfl

/-- Claim C10, amended: handlers built on `ServiceHandler` never
propagate a credential-resolution exception — construction always
completes, either with credentials loaded and no error or with the error
stored; and in the no-binding, no-environment case construction
completes with the host still None and a stored ValueError. (The
standalone MySQL/Valkey handlers do not share this behaviour.) -/
theorem c10_deferred_failure :
    ∀ (k : Kind) (cfg : SvcCfg) (vcap : Catalog) (env : Env),
      ((shInit k cfg vcap env).credentials_loaded = true ∧
        (shInit k cfg vcap env).credential_error = none ∨
       (shInit k cfg vcap env).credentials_loaded = false ∧
        (shInit k cfg vcap env).credential_error.isSome = true) ∧
      (find_service_credentials vcap cfg.service_types none = .ok none →
       envGet env (cfg.env_pfx ++ "_HOST") = none →
       (shInit k cfg vcap env).credentials_loaded = false ∧
       (shInit k cfg vcap env).state.host = none ∧
       (shInit k cfg vcap env).credential_error = some .valueError) := by
  intro k cfg vcap env
  constructor
  · rcases hload : load_credentials k cfg vcap env
        { host := none, port := cfg.default_port, username := none, password := none }
      with ⟨s, _ | e⟩
    · left
      unfold shInit
      rw [hload]
      exact ⟨rfl, rfl⟩
    · right
      unfold shInit
      rw [hload]
      exact ⟨rfl, rfl⟩
  · intro hfind henv
    unfold shInit load_credentials env_fallback
    rw [hfind, henv]
    exact ⟨rfl, rfl, rfl⟩

/-- Witness for C10: a database handler constructed against an empty
manifest and environment stores the failure and keeps host None. -/
theorem c10_deferred_failure_witness :
    (shInit .db postgresCfg [] []).credentials_loaded = false ∧
    (shInit .db postgresCfg [] []).state.host = none ∧
    (shInit .db postgresCfg [] []).credential_error = some .valueError :=
  (c10_deferred_failure .db postgresCfg [] []).2 rfl rfl

/-- A truthy optional value is present. -/
theorem truthyOpt_isSome {o : Option JVal} (h : truthyOpt o = true) : o.isSome = true := by
  cases o with
  | none => simp [truthyOpt] at h
  | some v => rfl

/-- A Python `or` whose right operand is present is present. -/
theorem pyOr_some_isSome (a : Option JVal) (b : JVal) : (pyOr a (some b)).isSome = true := by
  cases a with
  | none => rfl
  | some v =>
    show (if truthy v = true then some v else some b).isSome = true
    split <;> rfl

/-- When the extractor is handed an explicit `localhost` default host, a
present `host` entry always holds an actual value, never None. -/
theorem extractor_default_host_isSome (creds : JVal) (dp : Option Int) (p : Params)
    (hv : Option JVal) (hok : get_connection_params_from_creds creds (some "localhost") dp = .ok p)
    (hh : p.host = some hv) : hv.isSome = true := by
  unfold get_connection_params_from_creds at hok
  split at hok
  · rw [Except.ok.injEq] at hok
    subst hok
    simp at hh
  · cases hu : extractorUnwrap creds with
    | obj fs =>
      rw [hu] at hok
      dsimp only at hok
      split at hok
      · rw [Except.ok.injEq] at hok
        subst hok
        simp at hh
      · rw [Except.ok.injEq] at hok
        subst hok
        dsimp only at hh
        by_cases hus : (firstTruthy fs uriKeys).isSome = true
        · simp [hus] at hh
        · simp only [hus, if_false, Bool.false_eq_true] at hh
          rw [Option.some.injEq] at hh
          subst hh
          split
          · rfl
          · exact pyOr_some_isSome _ _
    | str s' => rw [hu] at hok; dsimp only at hok; split at hok
                · rw [Except.ok.injEq] at hok; subst hok; simp at hh
                · exact absurd hok (by simp)
    | num n => rw [hu] at hok; dsimp only at hok; split at hok
               · rw [Except.ok.injEq] at hok; subst hok; simp at hh
               · exact absurd hok (by simp)
    | boolean b => rw [hu] at hok; dsimp only at hok; split at hok
                   · rw [Except.ok.injEq] at hok; subst hok; simp at hh
                   · exact absurd hok (by simp)
    | null => rw [hu] at hok; dsimp only at hok; split at hok
              · rw [Except.ok.injEq] at hok; subst hok; simp at hh
              · exact absurd hok (by simp)
    | arr xs => rw [hu] at hok; dsimp only at hok; split at hok
                · rw [Except.ok.injEq] at hok; subst hok; simp at hh
                · exact absurd hok (by simp)

/-- `ServiceHandler._parse_uri` sets the host whenever it succeeds. -/
theorem base_parse_uri_host_ok (dp : Int) (u : JVal) (s : HState)
    (h : (base_parse_uri dp u s).2 = none) :
    (base_parse_uri dp u s).1.host.isSome = true := by
  cases u with
  | str ustr =>
    simp only [base_parse_uri] at h ⊢
    cases hh : (urlparse ustr).hostname with
    | none => rw [hh] at h; simp at h
    | some hn =>
      cases hp : urlPort (urlparse ustr) with
      | error e => rfl
      | ok q => rfl
  | num n => simp [base_parse_uri] at h
  | boolean b => simp [base_parse_uri] at h
  | null => simp [base_parse_uri] at h
  | obj fs => simp [base_parse_uri] at h
  | arr xs => simp [base_parse_uri] at h

/-- `DatabaseHandler._parse_uri` sets the host whenever it succeeds. -/
theorem db_parse_uri_host_ok (dp : Int) (u : JVal) (s : HState)
    (h : (db_parse_uri dp u s).2 = none) :
    (db_parse_uri dp u s).1.host.isSome = true := by
  cases u with
  | str ustr =>
    simp only [db_parse_uri] at h ⊢
    cases hh : (urlparse (strReplace (strReplace ustr "mysql2://" "mysql://")
        "postgres://" "postgresql://")).hostname with
    | none => rw [hh] at h; simp at h
    | some hn =>
      cases hp : urlPort (urlparse (strReplace (strReplace ustr "mysql2://" "mysql://")
          "postgres://" "postgresql://")) with
      | error e => rfl
      | ok q => rfl
  | num n => simp [db_parse_uri] at h
  | boolean b => simp [db_parse_uri] at h
  | null => simp [db_parse_uri] at h
  | obj fs => simp [db_parse_uri] at h
  | arr xs => simp [db_parse_uri] at h

/-- `CacheHandler._parse_uri` sets the host whenever it succeeds. -/
theorem cache_parse_uri_host_ok (dp : Int) (u : JVal) (s : HState)
    (h : (cache_parse_uri dp u s).2 = none) :
    (cache_parse_uri dp u s).1.host.isSome = true := by
  cases u with
  | str ustr =>
    simp only [cache_parse_uri] at h ⊢
    cases hp : urlPort (urlparse ustr) with
    | error e => rfl
    | ok q => rfl
  | num n => simp [cache_parse_uri] at h
  | boolean b => simp [cache_parse_uri] at h
  | null => simp [cache_parse_uri] at h
  | obj fs => simp [cache_parse_uri] at h
  | arr xs => simp [cache_parse_uri] at h

/-- `MessageQueueHandler._parse_uri` sets the host whenever it succeeds. -/
theorem mq_parse_uri_host_ok (dp : Int) (u : JVal) (s : HState)
    (h : (mq_parse_uri dp u s).2 = none) :
    (mq_parse_uri dp u s).1.host.isSome = true := by
  cases u with
  | str ustr =>
    simp only [mq_parse_uri] at h ⊢
    cases hp : urlPort (urlparse ustr) with
    | error e => rfl
    | ok q => rfl
  | num n => simp [mq_parse_uri] at h
  | boolean b => simp [mq_parse_uri] at h
  | null => simp [mq_parse_uri] at h
  | obj fs => simp [mq_parse_uri] at h
  | arr xs => simp [mq_parse_uri] at h

/-- `_parse_uri` sets the host whenever it succeeds, for every kind. -/
theorem parse_uri_host_ok (k : Kind) (dp : Int) (u : JVal) (s : HState)
    (h : (parse_uri k dp u s).2 = none) :
    (parse_uri k dp u s).1.host.isSome = true := by
  cases k with
  | base => exact base_parse_uri_host_ok dp u s h
  | db => exact db_parse_uri_host_ok dp u s h
  | cache => exact cache_parse_uri_host_ok dp u s h
  | mq => exact mq_parse_uri_host_ok dp u s h

/-- `ServiceHandler._parse_credentials` only succeeds with a truthy host. -/
theorem base_parse_credentials_host_ok (dp : Int) (creds : JVal) (s : HState)
    (h : (base_parse_credentials dp creds s).2 = none) :
    (base_parse_credentials dp creds s).1.host.isSome = true := by
  simp only [base_parse_credentials] at h ⊢
  cases hok : get_connection_params_from_creds creds none (some dp) with
  | error e => rw [hok] at h; simp at h
  | ok p =>
    rw [hok] at h
    dsimp only at h ⊢
    by_cases hc : truthyOpt (p.host.getD none) = true
    · rw [if_pos hc]
      exact truthyOpt_isSome hc
    · rw [if_neg hc] at h
      simp at h

/-- `DatabaseHandler._parse_credentials` only succeeds with a truthy host. -/
theorem db_parse_credentials_host_ok (dp : Int) (creds : JVal) (s : HState)
    (h : (db_parse_credentials dp creds s).2 = none) :
    (db_parse_credentials dp creds s).1.host.isSome = true := by
  simp only [db_parse_credentials] at h ⊢
  cases hok : get_connection_params_from_creds creds none (some dp) with
  | error e => rw [hok] at h; simp at h
  | ok p =>
    rw [hok] at h
    dsimp only at h ⊢
    by_cases hc : truthyOpt (p.host.getD none) = true
    · have h1 : (if truthyOpt (p.host.getD none) = true then p.host.getD none else none)
          = p.host.getD none := if_pos hc
      rw [h1, if_pos hc]
      exact truthyOpt_isSome hc
    · have h1 : (if truthyOpt (p.host.getD none) = true then p.host.getD none else none)
          = none := if_neg hc
      rw [h1] at h
      simp [truthyOpt] at h

/-- `CacheHandler._parse_credentials` always resolves a present host. -/
theorem cache_parse_credentials_host_ok (dp : Int) (creds : JVal) (s : HState)
    (h : (cache_parse_credentials dp creds s).2 = none) :
    (cache_parse_credentials dp creds s).1.host.isSome = true := by
  simp only [cache_parse_credentials] at h ⊢
  cases hok : get_connection_params_from_creds creds (some "localhost") (some dp) with
  | error e => rw [hok] at h; simp at h
  | ok p =>
    rw [hok] at h
    dsimp only at h ⊢
    generalize hgen : p.host = ph at h ⊢
    cases ph with
    | none => simp at h
    | some hv => exact extractor_default_host_isSome creds (some dp) p hv hok hgen

/-- `MessageQueueHandler._parse_credentials` always resolves a present host. -/
theorem mq_parse_credentials_host_ok (dp : Int) (creds : JVal) (s : HState)
    (h : (mq_parse_credentials dp creds s).2 = none) :
    (mq_parse_credentials dp creds s).1.host.isSome = true := by
  simp only [mq_parse_credentials] at h ⊢
  cases hok : get_connection_params_from_creds creds (some "localhost") (some dp) with
  | error e => rw [hok] at h; simp at h
  | ok p =>
    rw [hok] at h
    dsimp only at h ⊢
    generalize hgen : p.host = ph at h ⊢
    cases ph with
    | none => simp at h
    | some hv => exact extractor_default_host_isSome creds (some dp) p hv hok hgen

/-- `_parse_credentials` only succeeds with a present host, for every kind. -/
theorem parse_credentials_host_ok (k : Kind) (dp : Int) (creds : JVal) (s : HState)
    (h : (parse_credentials k dp creds s).2 = none) :
    (parse_credentials k dp creds s).1.host.isSome = true := by
  cases k with
  | base => exact base_parse_credentials_host_ok dp creds s h
  | db => exact db_parse_credentials_host_ok dp creds s h
  | cache => exact cache_parse_credentials_host_ok dp creds s h
  | mq => exact mq_parse_credentials_host_ok dp creds s h

/-- `ServiceHandler._load_from_env` sets the host whenever it succeeds. -/
theorem base_load_from_env_host_ok (cfg : SvcCfg) (env : Env) (s : HState)
    (h : (base_load_from_env cfg env s).2 = none) :
    (base_load_from_env cfg env s).1.host.isSome = true := by
  simp only [base_load_from_env] at h ⊢
  cases he : envGet env (cfg.env_pfx ++ "_HOST") with
  | none => rw [he] at h; simp at h
  | some hv =>
    rw [he] at h
    dsimp only at h ⊢
    by_cases hemp : hv.isEmpty = true
    · rw [if_pos hemp] at h; simp at h
    · rw [if_neg hemp] at h ⊢
      cases hp : pyStrToInt ((envGet env (cfg.env_pfx ++ "_PORT")).getD
          (intToDecString cfg.default_port)) with
      | none => rw [hp] at h; simp at h
      | some n => rfl

/-- `_load_from_env` sets the host whenever it succeeds, for every kind. -/
theorem load_from_env_host_ok (k : Kind) (cfg : SvcCfg) (env : Env) (s : HState)
    (h : (load_from_env k cfg env s).2 = none) :
    (load_from_env k cfg env s).1.host.isSome = true := by
  simp only [load_from_env] at h ⊢
  rcases hb : base_load_from_env cfg env s with ⟨s1, err⟩
  have hbase : s1.host.isSome = true ∨ err.isSome = true := by
    cases err with
    | none =>
      left
      have := base_load_from_env_host_ok cfg env s (by rw [hb])
      rw [hb] at this
      exact this
    | some e => right; rfl
  cases err with
  | some e => rw [hb] at h; simp at h
  | none =>
    rcases hbase with hh | hcontra
    · cases k <;> simpa using hh
    · simp at hcontra

/-- The environment fallback arm sets the host whenever it succeeds. -/
theorem env_fallback_host_ok (k : Kind) (cfg : SvcCfg) (env : Env) (s : HState)
    (h : (env_fallback k cfg env s).2 = none) :
    (env_fallback k cfg env s).1.host.isSome = true := by
  simp only [env_fallback] at h ⊢
  cases he : envGet env (cfg.env_pfx ++ "_HOST") with
  | none => rw [he] at h; simp at h
  | some hv =>
    rw [he] at h
    dsimp only at h ⊢
    by_cases hemp : hv.isEmpty = true
    · rw [if_pos hemp] at h; simp at h
    · rw [if_neg hemp] at h ⊢
      exact load_from_env_host_ok k cfg env s h

/-- `_load_credentials` ends with a present host whenever it succeeds. -/
theorem load_credentials_host_ok (k : Kind) (cfg : SvcCfg) (vcap : Catalog) (env : Env)
    (s : HState) (h : (load_credentials k cfg vcap env s).2 = none) :
    (load_credentials k cfg vcap env s).1.host.isSome = true := by
  simp only [load_credentials] at h ⊢
  cases hf : find_service_credentials vcap cfg.service_types none with
  | error e => rw [hf] at h; simp at h
  | ok copt =>
    rw [hf] at h
    dsimp only at h ⊢
    cases copt with
    | none => exact env_fallback_host_ok k cfg env s h
    | some creds =>
      dsimp only at h ⊢
      by_cases ht : truthy creds = true
      · rw [if_pos ht] at h ⊢
        cases hok : get_connection_params_from_creds creds none (some cfg.default_port) with
        | error e => simp [hok] at h
        | ok p =>
          try rw [hok] at h
          dsimp only at h ⊢
          generalize hpu : p.uri = pu at h ⊢
          cases pu with
          | some u => exact parse_uri_host_ok k cfg.default_port u s h
          | none =>
            generalize hx : extract_uri k creds = xu at h ⊢
            cases xu with
            | some u => exact parse_uri_host_ok k cfg.default_port u s h
            | none => exact parse_credentials_host_ok k cfg.default_port creds s h
      · rw [if_neg ht] at h ⊢
        exact env_fallback_host_ok k cfg env s h

/-- Claim C1, amended: resolution never reports success with the host
still None — whenever `ServiceHandler.__init__` ends with no stored
credential error, the handler's host is set, for every handler kind.
(The stronger reading — a matched payload with neither URI nor host
always fails — holds only for the base and database kinds; the cache and
message-queue kinds resolve such payloads to host `localhost`.) -/
theorem c1_validated_host_present (k : Kind) (cfg : SvcCfg) (vcap : Catalog) (env : Env)
    (h : (shInit k cfg vcap env).credential_error = none) :
    (shInit k cfg vcap env).state.host.isSome = true := by
  unfold shInit at h ⊢
  rcases hl : load_credentials k cfg vcap env
      { host := none, port := cfg.default_port, username := none, password := none }
    with ⟨s, err⟩
  cases err with
  | none =>
    have := load_credentials_host_ok k cfg vcap env
      { host := none, port := cfg.default_port, username := none, password := none }
      (by rw [hl])
    rw [hl] at this
    exact this
  | some e =>
    rw [hl] at h
    exact Option.noConfusion h

/-- Witness for C1: a successful shape-heuristic resolution has its host
present. -/
theorem c1_validated_host_present_witness :
    (shInit .db mysqlCfg vcapShapeOnly []).credential_error = none ∧
    (shInit .db mysqlCfg vcapShapeOnly []).state.host.isSome = true :=
  ⟨rfl, c1_validated_host_present .db mysqlCfg vcapShapeOnly [] rfl⟩

/-- Grouping-key lookup on a cons cell. -/
theorem lookupCat_cons (a : String) (svcs : List Svc) (rest : Catalog) (k : String) :
    lookupCat ((a, svcs) :: rest) k = if a == k then some svcs else lookupCat rest k := by
  unfold lookupCat
  rw [List.find?_cons]
  cases hak : (a == k) <;> simp [hak]

/-- An empty instance list under a grouping key behaves like an absent key
for strategy 1. -/
theorem step1_cons_empty (a : String) (rest : Catalog) (sn : Option String) (t : String)
    (hrest : lookupCat rest a = none) :
    step1 ((a, []) :: rest) sn t = step1 rest sn t := by
  unfold step1
  rw [lookupCat_cons]
  by_cases hat : a = t
  · subst hat
    rw [if_pos (by simp), hrest]
    simp
  · rw [if_neg (by simpa using hat)]

/-- Claim C8, amended: an instance list that exists but is empty is a
non-match — the whole search behaves as if the grouping key were absent,
continuing to every later candidate and strategy. (A payload that
unwraps to empty, by contrast, is returned as the empty payload,
terminating the search; the caller then treats the falsy payload as
not found.) -/
theorem c8_empty_instance_list_skipped (a : String) (rest : Catalog)
    (service_types : List String) (service_name : Option String)
    (hup : a ≠ "user-provided") (hrest : lookupCat rest a = none) :
    find_service_credentials ((a, []) :: rest) service_types service_name =
      find_service_credentials rest service_types service_name := by
  have h1 : strat1 ((a, []) :: rest) service_types service_name
      = strat1 rest service_types service_name := by
    unfold strat1
    have hfun : step1 ((a, []) :: rest) service_name = step1 rest service_name :=
      funext fun t => step1_cons_empty a rest service_name t hrest
    rw [hfun]
  have h2 : lookupCat ((a, []) :: rest) "user-provided" = lookupCat rest "user-provided" := by
    rw [lookupCat_cons, if_neg (by simpa using hup)]
  have h3 : strat3 ((a, []) :: rest) service_name = strat3 rest service_name := by
    unfold strat3
    cases service_name with
    | none => rfl
    | some nm =>
      dsimp only
      rw [List.findSome?_cons]
      simp
  unfold find_service_credentials
  rw [h1, h2, h3]

/-- Witness for C8: prepending an empty `mysql` instance list does not
change the result of a query answered by a later user-provided binding. -/
theorem c8_empty_instance_list_skipped_witness :
    ("mysql" : String) ≠ "user-provided" ∧
    find_service_credentials
        (("mysql", []) :: [("user-provided", [{ name := some "b", tags := ["redis"],
                                                credentials := .obj [("host", .str "h")] }])])
        ["redis"] none =
      find_service_credentials
        [("user-provided", [{ name := some "b", tags := ["redis"],
                              credentials := .obj [("host", .str "h")] }])]
        ["redis"] none :=
  ⟨by simp, c8_empty_instance_list_skipped "mysql"
    [("user-provided", [{ name := some "b", tags := ["redis"],
                          credentials := .obj [("host", .str "h")] }])]
    ["redis"] none (by simp) rfl⟩

/-- Instances delivered by a grouping-key lookup belong to the catalog. -/
theorem lookupCat_mem (vcap : Catalog) (k : String) (svcs : List Svc)
    (h : lookupCat vcap k = some svcs) : ∃ p ∈ vcap, p.2 = svcs := by
  unfold lookupCat at h
  rcases Option.map_eq_some'.mp h with ⟨pr, hfind, hsnd⟩
  exact ⟨pr, List.mem_of_find?_eq_some hfind, hsnd⟩

/-- A name that matches no binding makes strategy 1 behave as if no name
had been requested. -/
theorem step1_name_miss (vcap : Catalog) (nm : String) (t : String)
    (hname : ∀ p ∈ vcap, ∀ svc ∈ p.2, svc.name ≠ some nm) :
    step1 vcap (some nm) t = step1 vcap none t := by
  unfold step1
  cases hlk : lookupCat vcap t with
  | none => rfl
  | some services =>
    have hmem : ∀ svc ∈ services, svc.name ≠ some nm := by
      intro svc hsvc
      rcases lookupCat_mem vcap t services hlk with ⟨pr, hpr, hsnd⟩
      exact hname pr hpr svc (by rw [hsnd]; exact hsvc)
    have hbn : services.findSome? (fun svc =>
        if (svc.name == some nm && truthy svc.credentials) = true
        then some (unwrapCreds1 svc.credentials) else none) = none := by
      rw [List.findSome?_eq_none_iff]
      intro svc hsvc
      simp [hmem svc hsvc]
    dsimp only
    rw [hbn]

/-- A name that matches no user-provided binding makes the strategy 2
name pass fail. -/
theorem strat2name_miss (ups : List Svc) (nm : String)
    (h : ∀ svc ∈ ups, svc.name ≠ some nm) :
    strat2name ups (some nm) = none := by
  unfold strat2name
  rw [List.findSome?_eq_none_iff]
  intro svc hsvc
  simp [h svc hsvc]

/-- A name that matches no binding makes the global name search fail. -/
theorem strat3_miss (vcap : Catalog) (nm : String)
    (hname : ∀ p ∈ vcap, ∀ svc ∈ p.2, svc.name ≠ some nm) :
    strat3 vcap (some nm) = none := by
  unfold strat3
  dsimp only
  rw [List.findSome?_eq_none_iff]
  intro p hp
  rw [List.findSome?_eq_none_iff]
  intro svc hsvc
  simp [hname p hp svc hsvc]

/-- Claim C7, amended: an exact name is not a filter on the other
strategies — the tag-match and credential-shape strategies run whether or
not a name was requested, and a requested name that matches no binding
leaves the result exactly as if no name had been requested (so those
strategies can still select a binding). -/
theorem c7_exact_name_no_suppression (vcap : Catalog) (service_types : List String) (nm : String)
    (hname : ∀ p ∈ vcap, ∀ svc ∈ p.2, svc.name ≠ some nm) :
    find_service_credentials vcap service_types (some nm) =
      find_service_credentials vcap service_types none := by
  have h1 : strat1 vcap service_types (some nm) = strat1 vcap service_types none := by
    unfold strat1
    have hfun : step1 vcap (some nm) = step1 vcap none :=
      funext fun t => step1_name_miss vcap nm t hname
    rw [hfun]
  have h3 : strat3 vcap (some nm) = none := strat3_miss vcap nm hname
  have h3r : strat3 vcap none = none := rfl
  unfold find_service_credentials
  rw [h1, h3, h3r]
  cases hup : lookupCat vcap "user-provided" with
  | none => rfl
  | some ups =>
    dsimp only
    have h2 : strat2name ups (some nm) = none := by
      apply strat2name_miss
      intro svc hsvc
      rcases lookupCat_mem vcap "user-provided" ups hup with ⟨pr, hpr, hsnd⟩
      exact hname pr hpr svc (by rw [hsnd]; exact hsvc)
    have h2r : strat2name ups none = none := rfl
    rw [h2, h2r]

/-- Witness for C7: querying the tagged catalog with a name that matches
nothing gives the same payload as querying without a name. -/
theorem c7_exact_name_no_suppression_witness :
    find_service_credentials vcapTagged ["mysql"] (some "zzz") =
      find_service_credentials vcapTagged ["mysql"] none :=
  c7_exact_name_no_suppression vcapTagged ["mysql"] "zzz" (by
    intro p hp svc hsvc
    simp [vcapTagged] at hp
    subst hp
    simp at hsvc
    subst hsvc
    simp)

/-- Strategy 1 finds nothing when no queried type is a grouping key. -/
theorem strat1_no_alias (vcap : Catalog) (types : List String) (sn : Option String)
    (halias : ∀ t ∈ types, lookupCat vcap t = none) :
    strat1 vcap types sn = none := by
  unfold strat1
  rw [List.findSome?_eq_none_iff]
  intro t ht
  unfold step1
  rw [halias t ht]

/-- Strategy 4 finds nothing when no candidate passes the shape checks. -/
theorem strat4_no_shape (types : List String) (ups : List Svc)
    (h : ∀ svc ∈ ups, truthy svc.credentials = true →
      strat4inner (unwrapCreds4 svc.credentials) types = .ok false) :
    strat4 types ups = .ok none := by
  induction ups with
  | nil => rfl
  | cons svc rest ih =>
    unfold strat4
    by_cases ht : truthy svc.credentials = true
    · rw [if_neg (by simp [ht])]
      dsimp only
      rw [h svc (by simp) ht]
      exact ih (fun s hs hts => h s (List.mem_cons_of_mem svc hs) hts)
    · rw [if_pos (by simpa using ht)]
      exact ih (fun s hs hts => h s (List.mem_cons_of_mem svc hs) hts)

/-- Claim C6, amended: the matcher returns NotFound only when, in
addition to there being no matching grouping key, exact name, or tag,
no user-provided binding's lower-cased name contains a cleaned type
alias as a substring (strategy 2b) and no user-provided binding's
credential shape passes the strategy-4 heuristic; under all five
conditions together the result is None. -/
theorem c6_not_found_needs_all_strategies (vcap : Catalog) (types : List String)
    (sname : Option String)
    (halias : ∀ t ∈ types, lookupCat vcap t = none)
    (hname : ∀ p ∈ vcap, ∀ svc ∈ p.2, sname.isSome = true → svc.name ≠ sname)
    (htag : ∀ svc ∈ (lookupCat vcap "user-provided").getD [], ∀ t ∈ types,
        tagCond (cleanType t) t (svc.tags.map strToLower) = false)
    (hsub : ∀ svc ∈ (lookupCat vcap "user-provided").getD [], ∀ t ∈ types,
        strContains (strToLower (svc.name.getD "")) (cleanType t) = false ∧
        strContains (strToLower (svc.name.getD "")) (strToLower t) = false)
    (hshape : ∀ svc ∈ (lookupCat vcap "user-provided").getD [],
        truthy svc.credentials = true →
        strat4inner (unwrapCreds4 svc.credentials) types = .ok false) :
    find_service_credentials vcap types sname = .ok none := by
  have hs1 : strat1 vcap types sname = none := strat1_no_alias vcap types sname halias
  have hs3 : strat3 vcap sname = none := by
    cases sname with
    | none => rfl
    | some nm =>
      apply strat3_miss
      intro p hp svc hsvc
      exact hname p hp svc hsvc rfl
  unfold find_service_credentials
  rw [hs1, hs3]
  cases hup : lookupCat vcap "user-provided" with
  | none => rfl
  | some ups =>
    dsimp only
    have hget : (lookupCat vcap "user-provided").getD [] = ups := by rw [hup]; rfl
    have hs2n : strat2name ups sname = none := by
      cases sname with
      | none => rfl
      | some nm =>
        apply strat2name_miss
        intro svc hsvc
        rcases lookupCat_mem vcap "user-provided" ups hup with ⟨pr, hpr, hsnd⟩
        exact hname pr hpr svc (by rw [hsnd]; exact hsvc) rfl
    have hs2t : strat2tag ups types = none := by
      unfold strat2tag
      rw [List.findSome?_eq_none_iff]
      intro svc hsvc
      rw [List.findSome?_eq_none_iff]
      intro t ht
      have := htag svc (by rw [hget]; exact hsvc) t ht
      simp [this]
    have hs2b : strat2b ups types = none := by
      unfold strat2b
      rw [List.findSome?_eq_none_iff]
      intro svc hsvc
      rw [List.findSome?_eq_none_iff]
      intro t ht
      rcases hsub svc (by rw [hget]; exact hsvc) t ht with ⟨hc1, hc2⟩
      simp [hc1, hc2]
    have hs4 : strat4 types ups = .ok none := by
      apply strat4_no_shape
      intro svc hsvc hts
      exact hshape svc (by rw [hget]; exact hsvc) hts
    rw [hs2n, hs2t, hs2b, hs4]

/-- Witness for C6: a foreign-tagged, password-only user-provided binding
matches nothing, and the matcher reports NotFound. -/
theorem c6_not_found_needs_all_strategies_witness :
    find_service_credentials
        [("user-provided", [{ name := some "svc-x", tags := ["foo"],
                              credentials := .obj [("password", .str "p")] }])]
        ["mysql"] none = .ok none := by
  apply c6_not_found_needs_all_strategies
  · intro t ht
    simp at ht
    subst ht
    rfl
  · intro p hp svc hsvc hs
    simp at hs
  · intro svc hsvc t ht
    simp [lookupCat] at hsvc
    simp at ht
    subst hsvc
    subst ht
    rfl
  · intro svc hsvc t ht
    simp [lookupCat] at hsvc
    simp at ht
    subst hsvc
    subst ht
    exact ⟨rfl, rfl⟩
  · intro svc hsvc hts
    simp [lookupCat] at hsvc
    subst hsvc
    rfl

end CFSuper
